import Mathlib

/-!
Shallow embedding of the request-admission and usage-accounting core of
src/bot.py (a Discord image-generation bot), together with theorems that
settle the frozen claims about it.

Modelling conventions:
* wall-clock time (Python time.time and datetime.now) is a rational number;
* SQLite tables: the users table (primary key user_id) is a function from
  user ids to optional rows; the images table is a list of rows kept in
  insertion order, with the AUTOINCREMENT id dispensed from a nextImageId
  counter that starts at 1 and never reuses a value;
* the remote Hugging Face call is an oracle parameter
  hf : url → prompt → Option Nat, where some bytes models HTTP 200 and
  none models every non-200 status or request exception;
* image bytes are abstracted to Nat.
-/

set_option maxHeartbeats 1000000

/-- Entry of the MODELS table of src/bot.py (url, display name, description). -/
structure ModelInfo where
  url : String
  name : String
  description : String
deriving Repr, DecidableEq

/-- The MODELS dictionary of src/bot.py, as an association list in source order. -/
def MODELS : List (String × ModelInfo) :=
  [("flux",
    { url := "https://api-inference.huggingface.co/models/black-forest-labs/FLUX.1-schnell",
      name := "⚡ FLUX Schnell (Fast)",
      description := "Lightning fast, great quality" }),
   ("sd3",
    { url := "https://api-inference.huggingface.co/models/stabilityai/stable-diffusion-3-medium-diffusers",
      name := "🎨 Stable Diffusion 3",
      description := "High quality, versatile" }),
   ("playground",
    { url := "https://api-inference.huggingface.co/models/playgroundai/playground-v2.5-1024px-aesthetic",
      name := "🌟 Playground v2.5",
      description := "Aesthetic and artistic" }),
   ("anime",
    { url := "https://api-inference.huggingface.co/models/cagliostrolab/animagine-xl-3.1",
      name := "🎌 Animagine XL",
      description := "Perfect for anime/manga style" })]

/-- The record MODELS["flux"], used as the fallback model. -/
def flux_model : ModelInfo :=
  { url := "https://api-inference.huggingface.co/models/black-forest-labs/FLUX.1-schnell",
    name := "⚡ FLUX Schnell (Fast)",
    description := "Lightning fast, great quality" }

/-- The STYLE_PRESETS dictionary of src/bot.py. -/
def STYLE_PRESETS : List (String × String) :=
  [("photorealistic", "photorealistic, highly detailed, professional photography, 8k resolution, sharp focus"),
   ("anime", "anime style, manga, cel shading, vibrant colors, detailed character design"),
   ("artistic", "digital art, concept art, trending on artstation, detailed, professional"),
   ("cyberpunk", "cyberpunk style, neon lights, futuristic, sci-fi, dark atmosphere"),
   ("fantasy", "fantasy art, magical, ethereal, mystical, detailed environment"),
   ("vintage", "vintage style, retro, aged, classic, nostalgic atmosphere"),
   ("minimalist", "minimalist design, clean, simple, elegant composition"),
   ("surreal", "surreal art, dreamlike, abstract, unusual perspective, creative")]

/-- Row of the users table: images_generated, last_used, total_usage
(the user_id column is the key of the surrounding map). -/
structure UserRow where
  images_generated : Nat
  last_used : Option ℚ
  total_usage : Nat
deriving Repr, DecidableEq

/-- Row of the images table: id (AUTOINCREMENT), user_id, prompt, model,
timestamp, guild_id. -/
structure ImageRow where
  id : Nat
  user_id : Nat
  prompt : String
  model : String
  timestamp : ℚ
  guild_id : Nat
deriving Repr, DecidableEq

/-- State of bot_data.db: the users table, the images table in insertion
order, and the next AUTOINCREMENT id of the images table. -/
structure DB where
  users : Nat → Option UserRow
  images : List ImageRow
  nextImageId : Nat

/-- Database produced by init_db on a fresh file: both tables empty, the
first AUTOINCREMENT id is 1. -/
def init_db : DB :=
  { users := fun _ => none, images := [], nextImageId := 1 }

/-- UserManager.get_user_stats: the stored row, or an all-zero default when
the user has no row yet. -/
def get_user_stats (db : DB) (uid : Nat) : UserRow :=
  (db.users uid).getD { images_generated := 0, last_used := none, total_usage := 0 }

/-- UserManager.update_user_usage: INSERT OR REPLACE that adds 1 to
images_generated and total_usage (COALESCE gives 0 for a missing row) and
sets last_used to now. -/
def update_user_usage (db : DB) (uid : Nat) (now : ℚ) : DB :=
  let old := get_user_stats db uid
  { db with users := fun u =>
      if u = uid then
        some { images_generated := old.images_generated + 1,
               last_used := some now,
               total_usage := old.total_usage + 1 }
      else db.users u }

/-- UserManager.reset_daily_usage: UPDATE users SET images_generated = 0,
touching no other column and creating no row. -/
def reset_daily_usage (db : DB) : DB :=
  { db with users := fun u => (db.users u).map (fun r => { r with images_generated := 0 }) }

/-- UserManager.log_image_generation: INSERT INTO images; the row receives
the next AUTOINCREMENT id, which is global to the table, not per user. -/
def log_image_generation (db : DB) (uid : Nat) (prompt mdl : String) (now : ℚ) (gid : Nat) : DB :=
  { db with
      images := db.images ++
        [{ id := db.nextImageId, user_id := uid, prompt := prompt, model := mdl,
           timestamp := now, guild_id := gid }],
      nextImageId := db.nextImageId + 1 }

/-- The in-memory cooldowns dictionary: user id to timestamp of the last
accepted request. -/
abbrev CooldownMap := Nat → Option ℚ

/-- check_cooldown of src/bot.py: remaining wait time, or none when the
user may proceed. Reads the cooldowns map, never writes it. -/
def check_cooldown (cooldowns : CooldownMap) (uid : Nat) (cooldown_seconds : ℚ) (now : ℚ) :
    Option ℚ :=
  match cooldowns uid with
  | some t =>
      let elapsed := now - t
      if elapsed < cooldown_seconds then some (cooldown_seconds - elapsed) else none
  | none => none

/-- set_cooldown of src/bot.py: cooldowns[user_id] = time.time(). -/
def set_cooldown (cooldowns : CooldownMap) (uid : Nat) (now : ℚ) : CooldownMap :=
  fun u => if u = uid then some now else cooldowns u

/-- check_daily_limit of src/bot.py: whether images_generated has reached
the limit. -/
def check_daily_limit (db : DB) (uid : Nat) (limit : Nat) : Bool :=
  decide (limit ≤ (get_user_stats db uid).images_generated)

/-- Whole bot state: the database plus the in-memory cooldowns map. -/
structure BotState where
  db : DB
  cooldowns : CooldownMap

/-- generate_image_hf of src/bot.py: looks the model key up in MODELS,
falling back to the flux entry for an unknown key, and posts the prompt to
the resolved url through the oracle hf. -/
def generate_image_hf (hf : String → String → Option Nat) (prompt : String)
    (model_key : String) : Option Nat :=
  let mdl := (MODELS.lookup model_key).getD flux_model
  hf mdl.url prompt

/-- Model-validation line of generate_image (if model not in MODELS, use
"flux"). -/
def validate_model (mdl : String) : String :=
  if (MODELS.lookup mdl).isSome then mdl else "flux"

/-- Style-preset application of generate_image: a style that is a key of
STYLE_PRESETS appends its preset text to the prompt; anything else leaves
the prompt unchanged. -/
def enhance_prompt (p : String) (st : Option String) : String :=
  match st with
  | some sty =>
    match STYLE_PRESETS.lookup sty with
    | some pre => p ++ ", " ++ pre
    | none => p
  | none => p

/-- Outcome of one generate_image invocation, following the rejection
taxonomy of the design document. Two constructors exist for statability
and are shown unreachable in the code: rejectedGlobal (RejectedByQuota
global), because no global quota check exists, and delivered, because the
success branch of the source always raises before delivery (see
generate_image below). errored is the reply of the except handler at
lines 313-317 (unexpected error); failed is the explicit failure reply at
lines 307-311 when the provider returns no image. -/
inductive Outcome where
  | rejectedCooldown (remaining : ℚ)
  | rejectedDaily
  | rejectedGlobal
  | delivered (image : Nat)
  | failed
  | errored
deriving Repr, DecidableEq

/-- The generate_image slash command of src/bot.py, lines 215-317, as a
state transformer: check cooldown (45 s), check daily limit (25), validate
the model key, apply the style preset, set the cooldown, call the provider.
When the provider returns image bytes, the next statement of the source,
discord.File(fp=asyncio.BytesIO(image_data), ...) at line 264, raises
AttributeError — the asyncio module has no BytesIO (io.BytesIO was meant) —
so control jumps to the except handler at line 313, which replies with an
unexpected-error message: the update_user_usage and log_image_generation
calls at lines 288-289 are unreachable, and the database is never touched
by this command. When the provider fails, the code replies with the
explicit failure message. In both cases only the already-set cooldown
remains. -/
def generate_image (s : BotState) (uid : Nat) (prompt mdl : String) (style : Option String)
    (gid : Nat) (now : ℚ) (hf : String → String → Option Nat) : Outcome × BotState :=
  match check_cooldown s.cooldowns uid 45 now with
  | some remaining => (Outcome.rejectedCooldown remaining, s)
  | none =>
    if check_daily_limit s.db uid 25 then
      (Outcome.rejectedDaily, s)
    else
      let model1 := validate_model mdl
      let enhanced := enhance_prompt prompt style
      let cds := set_cooldown s.cooldowns uid now
      match generate_image_hf hf enhanced model1 with
      | some _ => (Outcome.errored, { s with cooldowns := cds })
      | none => (Outcome.failed, { s with cooldowns := cds })

/-- The reset_daily_limits background task (tasks.loop every 24 hours):
calls UserManager.reset_daily_usage. -/
def reset_daily_limits (s : BotState) : BotState :=
  { s with db := reset_daily_usage s.db }

/-- Per-user daily usage counter as read by check_daily_limit and /stats. -/
def dailyCount (db : DB) (uid : Nat) : Nat :=
  (get_user_stats db uid).images_generated

/-- Per-user lifetime usage counter. -/
def totalUsage (db : DB) (uid : Nat) : Nat :=
  (get_user_stats db uid).total_usage

/-- Modelled from the spec: the global monthly quota check, absent from
src/bot.py. Section 4.2 gives globalCount for the current UTC month against
a configured global monthly limit; a count at or above the limit is over
quota (so a limit of 0 rejects every request). -/
def specGlobalOver (globalLimit globalCount : Nat) : Bool :=
  decide (globalLimit ≤ globalCount)

/-- Modelled from the spec: the caller-facing list(user) operation, absent
from src/bot.py. Section 6 gives list(user) as the ordered sequence of
(sequence, promptExcerpt, createdAt) for the stored records of that user,
ordered by sequence ascending, where promptExcerpt is the stored prompt
truncated to the configured excerpt length. -/
def listArtifacts (db : DB) (uid : Nat) (excerptLen : Nat) : List (Nat × String × ℚ) :=
  (db.images.filter (fun r => r.user_id == uid)).map
    (fun r => (r.id, String.mk (r.prompt.data.take excerptLen), r.timestamp))

/-- Operations of the program that touch the persistent or in-memory state,
used to state frame and monotonicity properties over every operation. -/
inductive Op where
  | update (uid : Nat) (now : ℚ)
  | resetDaily
  | logImage (uid : Nat) (prompt mdl : String) (now : ℚ) (gid : Nat)
  | setCd (uid : Nat) (now : ℚ)
  | generate (uid : Nat) (prompt mdl : String) (style : Option String) (gid : Nat) (now : ℚ)
      (hf : String → String → Option Nat)

/-- Effect of one operation on the bot state. -/
def applyOp (s : BotState) : Op → BotState
  | Op.update uid now => { s with db := update_user_usage s.db uid now }
  | Op.resetDaily => reset_daily_limits s
  | Op.logImage uid p m now g => { s with db := log_image_generation s.db uid p m now g }
  | Op.setCd uid now => { s with cooldowns := set_cooldown s.cooldowns uid now }
  | Op.generate uid p m st g now hf => (generate_image s uid p m st g now hf).2

/-- Effect of a sequence of operations, first operation first. -/
def applyOps (s : BotState) : List Op → BotState
  | [] => s
  | op :: ops => applyOps (applyOp s op) ops

/-- Invariant of the images table maintained by the program: the ids in
insertion order are exactly 1, 2, ..., n, and the AUTOINCREMENT counter
stands at n + 1. It holds for init_db and is preserved by every operation. -/
def seqInv (db : DB) : Prop :=
  db.images.map ImageRow.id = List.range' 1 db.images.length ∧
  db.nextImageId = db.images.length + 1

/-- Bot state right after startup on a fresh database: init_db and an empty
cooldowns map. -/
def fresh_state : BotState :=
  { db := init_db, cooldowns := fun _ => none }

/-- Provider oracle that always answers HTTP 200 with the given bytes. -/
def hf_ok (img : Nat) : String → String → Option Nat :=
  fun _ _ => some img

/-- Provider oracle that always fails (non-200 status or request exception). -/
def hf_down : String → String → Option Nat :=
  fun _ _ => none

lemma seqInv_init_db : seqInv init_db :=
  ⟨rfl, rfl⟩

lemma seqInv_log_image (db : DB) (uid : Nat) (p m : String) (t : ℚ) (g : Nat)
    (h : seqInv db) : seqInv (log_image_generation db uid p m t g) := by
  obtain ⟨h1, h2⟩ := h
  refine ⟨?_, ?_⟩
  · simp only [log_image_generation, List.map_append, List.length_append, List.map_cons,
      List.map_nil, List.length_cons, List.length_nil]
    rw [h1, h2, List.range'_concat]
    simp [Nat.add_comm]
  · simp [log_image_generation, h2]

lemma seqInv_id_lt (db : DB) (h : seqInv db) :
    ∀ r ∈ db.images, r.id < db.nextImageId := by
  intro r hr
  have hm : r.id ∈ db.images.map ImageRow.id := List.mem_map_of_mem _ hr
  rw [h.1] at hm
  have := List.mem_range'_1.mp hm
  rw [h.2]
  omega

lemma seqInv_pairwise_ids (db : DB) (h : seqInv db) :
    (db.images.map ImageRow.id).Pairwise (· < ·) := by
  rw [h.1]
  exact List.pairwise_lt_range' 1 db.images.length

/-- C1, counterexample: sequence numbers come from the AUTOINCREMENT id of
the images table, which is global, not per user. Starting from a fresh
database, user 10 stores one artifact (id 1) and then the fresh user 20
stores their first artifact: it receives sequence number 2, not 1, refuting
the claim that the first artifact of a fresh user receives sequence number
1 (equivalently, that the allocated number is the smallest integer greater
than every number previously allocated to that same user, which for user 20
would be 1). -/
theorem fresh_user_first_seq_is_two :
    ((log_image_generation (log_image_generation init_db 10 "a" "flux" 0 0)
        20 "b" "flux" 0 0).images.filter (fun r => r.user_id == 20)).map ImageRow.id = [2] ∧
    (2 : Nat) ≠ 1 := by
  exact ⟨rfl, by decide⟩

/-- C1, amended: allocation is a table-global AUTOINCREMENT. Under the
maintained invariant seqInv, logging an image appends a record whose id is
db.nextImageId; that id is strictly greater than the id of every record
already stored for any user, and it is the smallest positive integer with
that property; afterwards no two records of the table share an id, and for
every user the ids of that user, in insertion order, are strictly
increasing. -/
theorem log_image_seq_allocation (db : DB) (uid v : Nat) (p m : String) (t : ℚ) (g : Nat)
    (h : seqInv db) :
    ((log_image_generation db uid p m t g).images.map ImageRow.id =
        db.images.map ImageRow.id ++ [db.nextImageId]) ∧
    (∀ r ∈ db.images, r.id < db.nextImageId) ∧
    (∀ k, 1 ≤ k → (∀ r ∈ db.images, r.id < k) → db.nextImageId ≤ k) ∧
    ((log_image_generation db uid p m t g).images.map ImageRow.id).Nodup ∧
    (((log_image_generation db uid p m t g).images.filter
        (fun r => r.user_id == v)).map ImageRow.id).Pairwise (· < ·) := by
  have hlog := seqInv_log_image db uid p m t g h
  refine ⟨?_, seqInv_id_lt db h, ?_, ?_, ?_⟩
  · simp [log_image_generation]
  · intro k hk hall
    rcases Nat.eq_zero_or_pos db.images.length with hn | hn
    · rw [h.2, hn]
      exact hk
    · have hmem : db.images.length ∈ List.range' 1 db.images.length :=
        List.mem_range'_1.mpr ⟨hn, by omega⟩
      rw [← h.1] at hmem
      obtain ⟨r, hr, hid⟩ := List.mem_map.mp hmem
      have := hall r hr
      rw [h.2]
      omega
  · rw [hlog.1]
    exact List.nodup_range' 1 _
  · have hsub : (((log_image_generation db uid p m t g).images.filter
        (fun r => r.user_id == v)).map ImageRow.id).Sublist
        ((log_image_generation db uid p m t g).images.map ImageRow.id) :=
      List.Sublist.map _ (List.filter_sublist _)
    exact List.Pairwise.sublist hsub (seqInv_pairwise_ids _ hlog)

/-- C1, witness for the amended theorem at a concrete input: logging the
first image on a fresh database appends id 1. -/
theorem log_image_seq_allocation_witness :
    (log_image_generation init_db 7 "p" "flux" 0 0).images.map ImageRow.id =
      init_db.images.map ImageRow.id ++ [init_db.nextImageId] :=
  (log_image_seq_allocation init_db 7 7 "p" "flux" 0 0 seqInv_init_db).1

/-- C3, counterexample: the daily counter of the code has no date key and
an explicit reset exists. Two accounted requests of user 10, issued at
times 0 and 1000000 (days apart), drive images_generated to 2 — the second
reading is not the count of requests of the current calendar day — and one
run of reset_daily_usage (the body of the 24-hour reset_daily_limits task)
sets the count to 0 although no date component changed and no request was
accounted. -/
theorem daily_count_reset_explicitly :
    dailyCount (update_user_usage (update_user_usage init_db 10 0) 10 1000000) 10 = 2 ∧
    dailyCount (reset_daily_usage
        (update_user_usage (update_user_usage init_db 10 0) 10 1000000)) 10 = 0 := by
  exact ⟨rfl, rfl⟩

/-- C3, amended: the daily usage count is a plain per-user counter with no
date component: update_user_usage adds 1 to it whatever the current time
is, and it returns to 0 only through the explicit reset operation
reset_daily_usage, which the reset_daily_limits background task performs
every 24 hours and which zeroes the counter of every user. -/
theorem daily_count_explicit_reset_semantics (db : DB) (cds : CooldownMap) (uid v : Nat)
    (now : ℚ) :
    dailyCount (update_user_usage db uid now) uid = dailyCount db uid + 1 ∧
    dailyCount (reset_daily_usage db) v = 0 ∧
    (reset_daily_limits { db := db, cooldowns := cds }).db = reset_daily_usage db := by
  refine ⟨?_, ?_, rfl⟩
  · simp [dailyCount, update_user_usage, get_user_stats]
  · simp only [dailyCount, reset_daily_usage, get_user_stats]
    cases db.users v <;> simp

lemma generate_image_cooldown_case (s : BotState) (uid : Nat) (p m : String)
    (st : Option String) (g : Nat) (now r : ℚ) (hf : String → String → Option Nat)
    (h : check_cooldown s.cooldowns uid 45 now = some r) :
    generate_image s uid p m st g now hf = (Outcome.rejectedCooldown r, s) := by
  unfold generate_image
  rw [h]

lemma generate_image_daily_case (s : BotState) (uid : Nat) (p m : String)
    (st : Option String) (g : Nat) (now : ℚ) (hf : String → String → Option Nat)
    (h1 : check_cooldown s.cooldowns uid 45 now = none)
    (h2 : check_daily_limit s.db uid 25 = true) :
    generate_image s uid p m st g now hf = (Outcome.rejectedDaily, s) := by
  unfold generate_image
  rw [h1]
  simp [h2]

lemma generate_image_failed_case (s : BotState) (uid : Nat) (p m : String)
    (st : Option String) (g : Nat) (now : ℚ) (hf : String → String → Option Nat)
    (h1 : check_cooldown s.cooldowns uid 45 now = none)
    (h2 : check_daily_limit s.db uid 25 = false)
    (h3 : generate_image_hf hf (enhance_prompt p st) (validate_model m) = none) :
    generate_image s uid p m st g now hf =
      (Outcome.failed, { s with cooldowns := set_cooldown s.cooldowns uid now }) := by
  unfold generate_image
  rw [h1]
  simp [h2, h3]

lemma generate_image_errored_case (s : BotState) (uid : Nat) (p m : String)
    (st : Option String) (g : Nat) (now : ℚ) (hf : String → String → Option Nat) (img : Nat)
    (h1 : check_cooldown s.cooldowns uid 45 now = none)
    (h2 : check_daily_limit s.db uid 25 = false)
    (h3 : generate_image_hf hf (enhance_prompt p st) (validate_model m) = some img) :
    generate_image s uid p m st g now hf =
      (Outcome.errored, { s with cooldowns := set_cooldown s.cooldowns uid now }) := by
  unfold generate_image
  rw [h1]
  simp [h2, h3]

/-- Exhaustive case analysis of one generate_image run. -/
lemma generate_image_cases (s : BotState) (uid : Nat) (p m : String)
    (st : Option String) (g : Nat) (now : ℚ) (hf : String → String → Option Nat) :
    (∃ r, check_cooldown s.cooldowns uid 45 now = some r ∧
        generate_image s uid p m st g now hf = (Outcome.rejectedCooldown r, s)) ∨
    (check_cooldown s.cooldowns uid 45 now = none ∧
        check_daily_limit s.db uid 25 = true ∧
        generate_image s uid p m st g now hf = (Outcome.rejectedDaily, s)) ∨
    (check_cooldown s.cooldowns uid 45 now = none ∧
        check_daily_limit s.db uid 25 = false ∧
        generate_image_hf hf (enhance_prompt p st) (validate_model m) = none ∧
        generate_image s uid p m st g now hf =
          (Outcome.failed, { s with cooldowns := set_cooldown s.cooldowns uid now })) ∨
    (∃ img, check_cooldown s.cooldowns uid 45 now = none ∧
        check_daily_limit s.db uid 25 = false ∧
        generate_image_hf hf (enhance_prompt p st) (validate_model m) = some img ∧
        generate_image s uid p m st g now hf =
          (Outcome.errored, { s with cooldowns := set_cooldown s.cooldowns uid now })) := by
  cases hcc : check_cooldown s.cooldowns uid 45 now with
  | some r =>
    exact Or.inl ⟨r, rfl, generate_image_cooldown_case s uid p m st g now r hf hcc⟩
  | none =>
    cases hdl : check_daily_limit s.db uid 25 with
    | true =>
      exact Or.inr (Or.inl ⟨rfl, rfl, generate_image_daily_case s uid p m st g now hf hcc hdl⟩)
    | false =>
      cases hhf : generate_image_hf hf (enhance_prompt p st) (validate_model m) with
      | none =>
        exact Or.inr (Or.inr (Or.inl
          ⟨rfl, rfl, rfl, generate_image_failed_case s uid p m st g now hf hcc hdl hhf⟩))
      | some img =>
        exact Or.inr (Or.inr (Or.inr ⟨img, rfl, rfl, rfl,
          generate_image_errored_case s uid p m st g now hf img hcc hdl hhf⟩))

lemma dailyCount_update_self (db : DB) (uid : Nat) (now : ℚ) :
    dailyCount (update_user_usage db uid now) uid = dailyCount db uid + 1 := by
  simp [dailyCount, update_user_usage, get_user_stats]

lemma totalUsage_update_self (db : DB) (uid : Nat) (now : ℚ) :
    totalUsage (update_user_usage db uid now) uid = totalUsage db uid + 1 := by
  simp [totalUsage, update_user_usage, get_user_stats]

lemma dailyCount_update_other (db : DB) (uid v : Nat) (now : ℚ) (h : v ≠ uid) :
    dailyCount (update_user_usage db uid now) v = dailyCount db v := by
  simp [dailyCount, update_user_usage, get_user_stats, h]

lemma totalUsage_update_other (db : DB) (uid v : Nat) (now : ℚ) (h : v ≠ uid) :
    totalUsage (update_user_usage db uid now) v = totalUsage db v := by
  simp [totalUsage, update_user_usage, get_user_stats, h]

lemma users_log_image (db : DB) (uid : Nat) (p m : String) (now : ℚ) (g : Nat) :
    (log_image_generation db uid p m now g).users = db.users := rfl

lemma dailyCount_log_image (db : DB) (uid v : Nat) (p m : String) (now : ℚ) (g : Nat) :
    dailyCount (log_image_generation db uid p m now g) v = dailyCount db v := rfl

lemma totalUsage_log_image (db : DB) (uid v : Nat) (p m : String) (now : ℚ) (g : Nat) :
    totalUsage (log_image_generation db uid p m now g) v = totalUsage db v := rfl

lemma generate_image_ne_global (s : BotState) (uid : Nat) (p m : String)
    (st : Option String) (g : Nat) (now : ℚ) (hf : String → String → Option Nat) :
    (generate_image s uid p m st g now hf).1 ≠ Outcome.rejectedGlobal := by
  rcases generate_image_cases s uid p m st g now hf with
    ⟨r, _, heq⟩ | ⟨_, _, heq⟩ | ⟨_, _, _, heq⟩ | ⟨img, _, _, _, heq⟩ <;>
    rw [heq] <;> simp

/-- C2, evaluation of the code at the failing input: the accounting stage
of generate_image is unreachable. In every run the database is returned
exactly as it was — no daily or lifetime counter changes and no image row
or sequence number is allocated — and the outcome is always a rejection,
the explicit provider-failure reply, or the unexpected-error reply of the
except handler; never delivered. Concretely, on a fresh state with user 1,
prompt "cat" and a provider that returns bytes, the run ends in errored
(the AttributeError of discord.File(fp=asyncio.BytesIO(...)) at line 264)
and the daily counter of user 1 stays 0, although the claim (and section
4.4 of the design) requires this accounted run to increment it to 1. -/
theorem accounting_unreachable (s : BotState) (uid : Nat) (p m : String)
    (st : Option String) (g : Nat) (now : ℚ) (hf : String → String → Option Nat) :
    ((generate_image s uid p m st g now hf).2).db = s.db ∧
    ((∃ r, (generate_image s uid p m st g now hf).1 = Outcome.rejectedCooldown r) ∨
      (generate_image s uid p m st g now hf).1 = Outcome.rejectedDaily ∨
      (generate_image s uid p m st g now hf).1 = Outcome.failed ∨
      (generate_image s uid p m st g now hf).1 = Outcome.errored) ∧
    (generate_image fresh_state 1 "cat" "flux" none 0 0 (hf_ok 42)).1 = Outcome.errored ∧
    dailyCount ((generate_image fresh_state 1 "cat" "flux" none 0 0 (hf_ok 42)).2).db 1 = 0 := by
  refine ⟨?_, ?_, rfl, rfl⟩ <;>
    rcases generate_image_cases s uid p m st g now hf with
      ⟨r, _, heq⟩ | ⟨_, _, heq⟩ | ⟨_, _, _, heq⟩ | ⟨img, _, _, _, heq⟩ <;> rw [heq]
  · exact Or.inl ⟨r, rfl⟩
  · exact Or.inr (Or.inl rfl)
  · exact Or.inr (Or.inr (Or.inl rfl))
  · exact Or.inr (Or.inr (Or.inr rfl))

/-- C4, counterexample: the design document also lists a global monthly
quota among the admission checks (spec-modelled as specGlobalOver, which
with the limit configured to 0 marks every request over quota), but the
code evaluates no such check: on a fresh state whose spec-level global
check fails, the call proceeds past admission — it ends in the
unexpected-error reply of the dead success path — instead of being
rejected by the failing global check. -/
theorem global_check_never_evaluated :
    specGlobalOver 0 0 = true ∧
    (generate_image fresh_state 3 "a cat" "flux" none 0 0 (hf_ok 5)).1 = Outcome.errored ∧
    Outcome.errored ≠ Outcome.rejectedGlobal := by
  exact ⟨rfl, rfl, by simp⟩

/-- C4, amended: admission checks are evaluated cooldown first, then
per-user daily quota, and there is no global monthly quota check: a failing
cooldown determines the outcome regardless of any quota state, a failing
daily limit determines it when the cooldown passes, and no run is ever
rejected for a global quota. -/
theorem admission_check_order (s : BotState) (uid : Nat) (p m : String)
    (st : Option String) (g : Nat) (now : ℚ) (hf : String → String → Option Nat) :
    (∀ r, check_cooldown s.cooldowns uid 45 now = some r →
        (generate_image s uid p m st g now hf).1 = Outcome.rejectedCooldown r) ∧
    (check_cooldown s.cooldowns uid 45 now = none →
      check_daily_limit s.db uid 25 = true →
        (generate_image s uid p m st g now hf).1 = Outcome.rejectedDaily) ∧
    (generate_image s uid p m st g now hf).1 ≠ Outcome.rejectedGlobal := by
  refine ⟨?_, ?_, generate_image_ne_global s uid p m st g now hf⟩
  · intro r h
    rw [generate_image_cooldown_case s uid p m st g now r hf h]
  · intro h1 h2
    rw [generate_image_daily_case s uid p m st g now hf h1 h2]

/-- C4, witness: a user on cooldown whose daily limit is also exhausted is
rejected with the cooldown reason, showing the cooldown check runs first. -/
theorem admission_check_order_witness :
    (generate_image
      { db := { users := fun u => if u = 1 then
                  some { images_generated := 25, last_used := some 0, total_usage := 25 }
                else none,
                images := [], nextImageId := 1 },
        cooldowns := fun _ => some 0 }
      1 "p" "flux" none 0 10 (hf_ok 1)).1 = Outcome.rejectedCooldown 35 :=
  (admission_check_order
    { db := { users := fun u => if u = 1 then
                some { images_generated := 25, last_used := some 0, total_usage := 25 }
              else none,
              images := [], nextImageId := 1 },
      cooldowns := fun _ => some 0 }
    1 "p" "flux" none 0 10 (hf_ok 1)).1 35 (by norm_num [check_cooldown])

/-- C5, counterexample: with the global monthly limit configured to 0 in
the spec-modelled sense, a generate call on a fresh state is not rejected
with the global-quota reason: it passes admission and ends in the
unexpected-error reply of the dead success path, with the daily counter of
the caller unchanged at 0. -/
theorem global_limit_zero_no_global_rejection :
    specGlobalOver 0 0 = true ∧
    (generate_image fresh_state 4 "a dog" "sd3" none 0 0 (hf_ok 9)).1 = Outcome.errored ∧
    Outcome.errored ≠ Outcome.rejectedGlobal ∧
    dailyCount ((generate_image fresh_state 4 "a dog" "sd3" none 0 0 (hf_ok 9)).2).db 4 = 0 := by
  exact ⟨rfl, rfl, by simp, rfl⟩

/-- C5, amended: the code implements no global monthly quota: whatever the
state, arguments and provider behaviour, a generate call is never rejected
with RejectedByQuota(global); the spec-level scenario of a global limit of
0 therefore does not reject anything. -/
theorem no_global_quota_rejection (s : BotState) (uid : Nat) (p m : String)
    (st : Option String) (g : Nat) (now : ℚ) (hf : String → String → Option Nat) :
    (generate_image s uid p m st g now hf).1 ≠ Outcome.rejectedGlobal :=
  generate_image_ne_global s uid p m st g now hf

/-- C5, witness for the amended theorem at a concrete input. -/
theorem no_global_quota_rejection_witness :
    (generate_image fresh_state 6 "x" "flux" none 0 0 hf_down).1 ≠ Outcome.rejectedGlobal :=
  no_global_quota_rejection fresh_state 6 "x" "flux" none 0 0 hf_down

/-- C6: in every admitted run (cooldown passed, daily limit passed) the
cooldown timestamp of the requesting user is set to now in the final state,
whatever the provider answers; in particular a run that fails at the
provider still leaves the cooldown consumed, never refunded. In the code
set_cooldown textually precedes the await of the provider call, and here
the recorded timestamp is independent of the provider oracle. -/
theorem cooldown_consumed_even_on_failure (s : BotState) (uid : Nat) (p m : String)
    (st : Option String) (g : Nat) (now : ℚ) (hf : String → String → Option Nat)
    (h1 : check_cooldown s.cooldowns uid 45 now = none)
    (h2 : check_daily_limit s.db uid 25 = false) :
    ((generate_image s uid p m st g now hf).2).cooldowns uid = some now := by
  cases hhf : generate_image_hf hf (enhance_prompt p st) (validate_model m) with
  | some img =>
    rw [generate_image_errored_case s uid p m st g now hf img h1 h2 hhf]
    simp [set_cooldown]
  | none =>
    rw [generate_image_failed_case s uid p m st g now hf h1 h2 hhf]
    simp [set_cooldown]

/-- C6, witness: the provider is down, the run fails, and the cooldown of
user 1 is nevertheless recorded. -/
theorem cooldown_consumed_even_on_failure_witness :
    ((generate_image fresh_state 1 "p" "flux" none 0 0 hf_down).2).cooldowns 1 = some 0 :=
  cooldown_consumed_even_on_failure fresh_state 1 "p" "flux" none 0 0 hf_down rfl rfl

/-- C7: for every cooldown map, user and window, check_cooldown returns
none exactly when no accepted request of that user is recorded within the
last w seconds (strictly less than w seconds ago, or no record at all), and
it returns some r exactly when a request was recorded at a time t with
now - t < w and r = w - (now - t); being a plain function of the map, the
check mutates nothing. -/
theorem check_cooldown_spec (cooldowns : CooldownMap) (uid : Nat) (w now : ℚ) :
    (check_cooldown cooldowns uid w now = none ↔
      ∀ t, cooldowns uid = some t → w ≤ now - t) ∧
    (∀ r, check_cooldown cooldowns uid w now = some r ↔
      ∃ t, cooldowns uid = some t ∧ now - t < w ∧ r = w - (now - t)) := by
  cases h : cooldowns uid with
  | none =>
    simp [check_cooldown, h]
  | some t =>
    constructor
    · by_cases hlt : now - t < w
      · simp [check_cooldown, h, hlt, not_le.mpr hlt]
      · simp [check_cooldown, h, hlt, le_of_not_lt hlt]
    · intro r
      by_cases hlt : now - t < w
      · simp only [check_cooldown, h]
        rw [if_pos hlt]
        constructor
        · intro hr
          injection hr with hr2
          exact ⟨t, rfl, hlt, hr2.symm⟩
        · rintro ⟨t2, ht2, hlt2, hr⟩
          injection ht2 with ht2
          subst ht2
          rw [hr]
      · simp only [check_cooldown, h]
        rw [if_neg hlt]
        constructor
        · intro hr
          cases hr
        · rintro ⟨t2, ht2, hlt2, hr⟩
          injection ht2 with ht2
          subst ht2
          exact absurd hlt2 hlt

/-- C7, witness: with no record at all the check allows the request. -/
theorem check_cooldown_spec_witness :
    check_cooldown (fun _ => none) 5 45 100 = none :=
  ((check_cooldown_spec (fun _ => none) 5 45 100).1).mpr (by intro t h; cases h)

/-- C8: round-trip of store and list. Storing an artifact with prompt p for
user uid appends a record carrying the freshly allocated sequence number
db.nextImageId; the spec-modelled listing of that user then contains the
entry (db.nextImageId, excerpt, t) whose excerpt is the prompt truncated to
the configured length (a prefix of p, witnessed by the dropped remainder),
and the listed sequence numbers are strictly ascending. -/
theorem store_list_round_trip (db : DB) (uid : Nat) (p m : String) (t : ℚ) (g : Nat)
    (L : Nat) (h : seqInv db) :
    (db.nextImageId, String.mk (p.data.take L), t) ∈
        listArtifacts (log_image_generation db uid p m t g) uid L ∧
    (String.mk (p.data.take L)).data ++ p.data.drop L = p.data ∧
    ((listArtifacts (log_image_generation db uid p m t g) uid L).map
        Prod.fst).Pairwise (· < ·) := by
  refine ⟨?_, List.take_append_drop L p.data, ?_⟩
  · simp only [listArtifacts, log_image_generation]
    apply List.mem_map.mpr
    refine ⟨{ id := db.nextImageId, user_id := uid, prompt := p, model := m,
              timestamp := t, guild_id := g }, ?_, rfl⟩
    apply List.mem_filter.mpr
    exact ⟨List.mem_append.mpr (Or.inr (List.mem_singleton.mpr rfl)), by simp⟩
  · have hlog := seqInv_log_image db uid p m t g h
    have hmapeq : (listArtifacts (log_image_generation db uid p m t g) uid L).map Prod.fst
        = ((log_image_generation db uid p m t g).images.filter
            (fun r => r.user_id == uid)).map ImageRow.id := by
      simp only [listArtifacts, List.map_map]
      rfl
    rw [hmapeq]
    exact List.Pairwise.sublist (List.Sublist.map _ (List.filter_sublist _))
      (seqInv_pairwise_ids _ hlog)

/-- C8, witness: storing "cat" on a fresh database and listing user 2 with
excerpt length 2 yields the entry with sequence 1 and the truncated prompt. -/
theorem store_list_round_trip_witness :
    (init_db.nextImageId, String.mk ("cat".data.take 2), (0 : ℚ)) ∈
      listArtifacts (log_image_generation init_db 2 "cat" "flux" 0 0) 2 2 :=
  (store_list_round_trip init_db 2 "cat" "flux" 0 0 2 seqInv_init_db).1

lemma totalUsage_update_le (db : DB) (uid u : Nat) (now : ℚ) :
    totalUsage db u ≤ totalUsage (update_user_usage db uid now) u := by
  by_cases h : u = uid
  · subst h
    rw [totalUsage_update_self]
    exact Nat.le_succ _
  · rw [totalUsage_update_other _ _ _ _ h]

lemma totalUsage_reset (db : DB) (u : Nat) :
    totalUsage (reset_daily_usage db) u = totalUsage db u := by
  simp only [totalUsage, reset_daily_usage, get_user_stats]
  cases db.users u <;> simp

lemma totalUsage_mono_op (s : BotState) (op : Op) (u : Nat) :
    totalUsage s.db u ≤ totalUsage (applyOp s op).db u := by
  cases op with
  | update uid now => exact totalUsage_update_le s.db uid u now
  | resetDaily => exact le_of_eq (totalUsage_reset s.db u).symm
  | logImage uid p m now g => exact le_of_eq (totalUsage_log_image s.db uid u p m now g).symm
  | setCd uid now => exact le_refl _
  | generate uid p m st g now hf =>
    rcases generate_image_cases s uid p m st g now hf with
      ⟨r, _, heq⟩ | ⟨_, _, heq⟩ | ⟨_, _, _, heq⟩ | ⟨img, _, _, _, heq⟩ <;>
      simp only [applyOp, heq] <;> exact le_refl _

lemma totalUsage_mono_ops (s : BotState) (ops : List Op) (u : Nat) :
    totalUsage s.db u ≤ totalUsage (applyOps s ops).db u := by
  induction ops generalizing s with
  | nil => exact le_refl _
  | cons op rest ih => exact le_trans (totalUsage_mono_op s op u) (ih (applyOp s op))

/-- C9: frame of the daily reset and monotonicity of total_usage. The reset
zeroes images_generated for every user while preserving last_used,
total_usage and row existence (user_id is the key, so it is untouched by
construction); and total_usage never decreases under any single operation
of the program nor under any sequence of them. -/
theorem reset_frame_and_total_monotone (db : DB) (u : Nat) (s : BotState) (op : Op)
    (ops : List Op) :
    (get_user_stats (reset_daily_usage db) u).images_generated = 0 ∧
    (get_user_stats (reset_daily_usage db) u).last_used = (get_user_stats db u).last_used ∧
    (get_user_stats (reset_daily_usage db) u).total_usage = (get_user_stats db u).total_usage ∧
    ((reset_daily_usage db).users u).isSome = (db.users u).isSome ∧
    totalUsage s.db u ≤ totalUsage (applyOp s op).db u ∧
    totalUsage s.db u ≤ totalUsage (applyOps s ops).db u := by
  refine ⟨?_, ?_, ?_, ?_, totalUsage_mono_op s op u, totalUsage_mono_ops s ops u⟩ <;>
    simp only [reset_daily_usage, get_user_stats] <;> cases db.users u <;> simp

/-- C10: a generate request with a model identifier that is not a key of
MODELS behaves exactly as a request for "flux": the whole outcome-and-state
result coincides, and the provider call of generate_image_hf resolves an
unknown key to the flux url as well. -/
theorem unknown_model_falls_back_to_flux (s : BotState) (uid : Nat) (p mdl : String)
    (st : Option String) (g : Nat) (now : ℚ) (hf : String → String → Option Nat)
    (h : MODELS.lookup mdl = none) :
    generate_image s uid p mdl st g now hf = generate_image s uid p "flux" st g now hf ∧
    generate_image_hf hf p mdl = generate_image_hf hf p "flux" := by
  have hv : validate_model mdl = validate_model "flux" := by
    simp [validate_model, h]
  constructor
  · unfold generate_image
    rw [hv]
  · unfold generate_image_hf
    rw [h]
    rfl

/-- C10, witness: the unknown key "sdxl" behaves as "flux". -/
theorem unknown_model_falls_back_to_flux_witness :
    generate_image fresh_state 1 "p" "sdxl" none 0 0 (hf_ok 3)
      = generate_image fresh_state 1 "p" "flux" none 0 0 (hf_ok 3) :=
  (unknown_model_falls_back_to_flux fresh_state 1 "p" "sdxl" none 0 0 (hf_ok 3) rfl).1
